import Mathlib

/-!
A shallow embedding of the core of the `lldb` Rust binding crate
(`src/error.rs`, `src/platform.rs`, `src/remote_url.rs`) together with
proofs of the specified properties.

Modelling conventions:
* Rust `String` values become Lean `String`; the interior-NUL check of
  `CString::new` is the predicate `hasNul` on the character data (a NUL
  byte occurs in the UTF-8 encoding exactly when the NUL character occurs).
* `u16` / `u64` values (ports, pids) become `Nat`; they are only rendered
  or passed through, never computed with, so no modular reduction arises.
* A Rust panic (`expect`) is the explicit constructor `SerializeResult.panicked`
  (resp. `TResult.panicked`); a function whose Lean result type has no
  panic constructor cannot panic in the modelled code.
* The native engine (`sys::*`) is not part of the sources. Its error
  objects are modelled from the spec: a native error record is either
  invalid, or valid and exactly one of success / failure
  (spec section 3, ErrorHandle invariant). Fallible native entry points are
  an uninterpreted oracle (`NativeEngine`) choosing the state of the
  error object each call returns. Native error objects live in a
  `NativeState` list; a raw handle is an index into it.
* Heap events relevant to the buffer-lifetime claim (allocation of the
  serialized URL buffer, its hypothetical free, the native calls) are
  recorded in explicit `Ev` traces.
-/

/-- NUL character, the byte `CString::new` rejects inside a string. -/
def nulChar : Char := '\x00'

/-- Does the string contain an interior NUL? This is exactly the failure
condition of `CString::new` on the UTF-8 bytes of the string. -/
def hasNul (s : String) : Bool := s.data.any fun c => c == nulChar

/-- Result of a Rust function returning `CString` that may panic:
`ok` carries the NUL-free text, `panicked` models the `expect` panic. -/
inductive SerializeResult
  | ok (s : String)
  | panicked
  deriving DecidableEq, Repr

/-- Scheme enum from `src/remote_url.rs` (`RemoteUrlScheme`). -/
inductive RemoteUrlScheme
  | Listen
  | Accept
  | UnixAccept
  | Connect
  | TcpConnect
  | Udp
  | UnixConnect
  | UnixAbstractConnect
  | Fd
  | File
  deriving DecidableEq, Repr

/-- Token table of `RemoteUrlScheme::as_str` in `src/remote_url.rs`. -/
def RemoteUrlScheme.as_str : RemoteUrlScheme → String
  | .Listen => "listen"
  | .Accept => "accept"
  | .UnixAccept => "unix-accept"
  | .Connect => "connect"
  | .TcpConnect => "tcp-connect"
  | .Udp => "udp"
  | .UnixConnect => "unix-connect"
  | .UnixAbstractConnect => "unix-abstract-connect"
  | .Fd => "fd"
  | .File => "file"

/-- The `RemoteUrl` struct of `src/remote_url.rs`: scheme, host,
optional port, optional path. -/
structure RemoteUrl where
  scheme : RemoteUrlScheme
  host : String
  port : Option Nat
  path : Option String
  deriving DecidableEq, Repr

/-- Constructor `RemoteUrl::new`: host set, no port, no path. -/
def RemoteUrl.new (scheme : RemoteUrlScheme) (host : String) : RemoteUrl :=
  { scheme := scheme, host := host, port := none, path := none }

/-- Setter `RemoteUrl::port` (the spec calls it `with_port`): last write wins. -/
def RemoteUrl.with_port (u : RemoteUrl) (p : Nat) : RemoteUrl :=
  { u with port := some p }

/-- Setter `RemoteUrl::path` (the spec calls it `with_path`): last write wins. -/
def RemoteUrl.with_path (u : RemoteUrl) (q : String) : RemoteUrl :=
  { u with path := some q }

/-- The URL text assembled by `RemoteUrl::serialize` before the `CString`
conversion: `format!("{}://{}", scheme, host)` then the two optional
`write!` appends. -/
def RemoteUrl.serializeText (u : RemoteUrl) : String :=
  let url := u.scheme.as_str ++ "://" ++ u.host
  let url := match u.port with
    | some p => url ++ ":" ++ Nat.repr p
    | none => url
  let url := match u.path with
    | some q => url ++ "/" ++ q
    | none => url
  url

/-- `RemoteUrl::serialize`: builds the URL text, then
the `CString` conversion whose `expect` message reads: URL does not contain nul — a panic when the
text has an interior NUL, otherwise the NUL-terminated text. -/
def RemoteUrl.serialize (u : RemoteUrl) : SerializeResult :=
  if hasNul u.serializeText then .panicked else .ok u.serializeText

/-- Modelled from the spec: the state of one native error record.
Spec section 3 (ErrorHandle invariant): a record is either invalid, or
valid and then exactly one of success / failure — never both. The three
native queries `SBErrorIsValid` / `SBErrorSuccess` / `SBErrorFail` read
this state. -/
inductive NativeErrorState
  | invalid
  | success
  | failure
  deriving DecidableEq, Repr

/-- Native query `SBErrorIsValid` on a record in the given state. -/
def NativeErrorState.isValidB : NativeErrorState → Bool
  | .invalid => false
  | _ => true

/-- Native query `SBErrorSuccess` on a record in the given state. -/
def NativeErrorState.isSuccessB : NativeErrorState → Bool
  | .success => true
  | _ => false

/-- Native query `SBErrorFail` on a record in the given state. -/
def NativeErrorState.isFailB : NativeErrorState → Bool
  | .failure => true
  | _ => false

/-- The store of native error records; a raw `SBErrorRef` is an index
into the list. A dangling index reads as an invalid record. -/
structure NativeState where
  errs : List NativeErrorState
  deriving Repr

/-- State of the native record a raw `SBErrorRef` points at. -/
def NativeState.stateOf (st : NativeState) (raw : Nat) : NativeErrorState :=
  st.errs.getD raw .invalid

/-- The `SBError` struct of `src/error.rs`: owns one raw `SBErrorRef`. -/
structure SBError where
  raw : Nat
  deriving DecidableEq, Repr

/-- `SBError::wrap`: takes ownership of a raw reference unchecked. -/
def SBError.wrap (raw : Nat) : SBError := { raw := raw }

/-- `SBError::is_valid`: `sys::SBErrorIsValid(self.raw) != 0`. -/
def SBError.is_valid (st : NativeState) (e : SBError) : Bool :=
  (st.stateOf e.raw).isValidB

/-- `SBError::is_success`: `sys::SBErrorSuccess(self.raw) != 0`. -/
def SBError.is_success (st : NativeState) (e : SBError) : Bool :=
  (st.stateOf e.raw).isSuccessB

/-- `SBError::is_failure`: `sys::SBErrorFail(self.raw) != 0`. -/
def SBError.is_failure (st : NativeState) (e : SBError) : Bool :=
  (st.stateOf e.raw).isFailB

/-- `SBError::maybe_wrap`: wraps the raw reference when the native
validity query reports it valid, otherwise `none`. -/
def SBError.maybe_wrap (st : NativeState) (raw : Nat) : Option SBError :=
  if (st.stateOf raw).isValidB then some { raw := raw } else none

/-- `SBError::new` via `sys::CreateSBError`. Modelled from the spec:
`CreateSBError` is not in the sources; per spec section 4.2 a freshly
constructed error record is valid and counts as success until a native
call writes to it. The fresh record is appended to the store. -/
def SBError.new (st : NativeState) : NativeState × SBError :=
  ({ errs := st.errs ++ [.success] }, { raw := st.errs.length })

/-- `SBError::into_result`: `Ok(())` on success, otherwise `Err(self)`.
The store is returned untouched: no native clone or create happens. -/
def SBError.into_result (st : NativeState) (e : SBError) :
    NativeState × Except SBError Unit :=
  if e.is_success st then (st, .ok ()) else (st, .error e)

/-- Heap and native-call events recorded by the platform-side
operations, used to express the buffer-lifetime and
no-native-call-before-panic properties. -/
inductive Ev
  | allocUrl (url : String)
  | freeUrl (url : String)
  | nativeCreateOpts (url : String)
  | nativeDisposeOpts (url : String)
  | nativeConnect (url : String)
  | nativeLaunch
  | nativeKill
  deriving DecidableEq, Repr

/-- Is the event a call into the native engine? -/
def Ev.isNative : Ev → Bool
  | .allocUrl _ => false
  | .freeUrl _ => false
  | _ => true

/-- Is the event a deallocation of a serialized URL buffer? -/
def Ev.isFree : Ev → Bool
  | .freeUrl _ => true
  | _ => false

/-- Result of a traced operation that may panic partway: `ok` carries
the value and the events emitted, `panicked` the events emitted before
the panic. -/
inductive TResult (α : Type)
  | ok (val : α) (evs : List Ev)
  | panicked (evs : List Ev)
  deriving Repr

/-- Scheme enum from `src/platform.rs` (`RemoteScheme`) — a verbatim
duplicate of `RemoteUrlScheme` in the sources. -/
inductive RemoteScheme
  | Listen
  | Accept
  | UnixAccept
  | Connect
  | TcpConnect
  | Udp
  | UnixConnect
  | UnixAbstractConnect
  | Fd
  | File
  deriving DecidableEq, Repr

/-- Token table of `RemoteScheme::as_str` in `src/platform.rs`. -/
def RemoteScheme.as_str : RemoteScheme → String
  | .Listen => "listen"
  | .Accept => "accept"
  | .UnixAccept => "unix-accept"
  | .Connect => "connect"
  | .TcpConnect => "tcp-connect"
  | .Udp => "udp"
  | .UnixConnect => "unix-connect"
  | .UnixAbstractConnect => "unix-abstract-connect"
  | .Fd => "fd"
  | .File => "file"

/-- `RemoteConnectOptions::serialize_url` in `src/platform.rs`: assembles
`"{scheme}://{host}"` plus the optional `":{port}"` and `"/{path}"`
appends, then the `CString` conversion whose `expect` message reads: URL does not contain nul. -/
def serialize_url (scheme : RemoteScheme) (host : String)
    (port : Option Nat) (path : Option String) : SerializeResult :=
  let url := scheme.as_str ++ "://" ++ host
  let url := match port with
    | some p => url ++ ":" ++ Nat.repr p
    | none => url
  let url := match path with
    | some q => url ++ "/" ++ q
    | none => url
  if hasNul url then .panicked else .ok url

/-- The `RemoteConnectOptions` wrapper of `src/platform.rs`: the native
connect-options object, holding the URL text it was constructed from. -/
structure RemoteConnectOptions where
  url : String
  deriving DecidableEq, Repr

/-- `RemoteConnectOptions::new`: serializes the URL (panicking before
any allocation or native call when the text has an interior NUL), then
`Box::leak`s the buffer and calls `sys::CreateSBPlatformConnectOptions`
on it. No `freeUrl` event is ever emitted: the buffer is intentionally
leaked. -/
def RemoteConnectOptions.new (scheme : RemoteScheme) (host : String)
    (port : Option Nat) (path : Option String) : TResult RemoteConnectOptions :=
  match serialize_url scheme host port path with
  | .panicked => .panicked []
  | .ok url => .ok { url := url } [.allocUrl url, .nativeCreateOpts url]

/-- `Drop for RemoteConnectOptions`: disposes the native object via
`sys::DisposeSBPlatformConnectOptions`; the leaked URL buffer is not
freed. -/
def RemoteConnectOptions.drop (o : RemoteConnectOptions) : List Ev :=
  [.nativeDisposeOpts o.url]

/-- Modelled from the spec: the fallible native entry points
(`SBPlatformConnectRemote`, `SBPlatformLaunch`, `SBPlatformKill`,
`SBPlatformIsValid`) are not in the sources; per spec section 6 each
returns a fresh error record whose state the engine chooses. The oracle
fixes those choices per call arguments. -/
structure NativeEngine where
  connectResult : Nat → String → NativeErrorState
  launchResult : Nat → Nat → NativeErrorState
  killResult : Nat → Nat → NativeErrorState
  platformValidQ : Nat → Bool

/-- The `SBPlatform` struct of `src/platform.rs`: owns one raw
`SBPlatformRef`. -/
structure SBPlatform where
  raw : Nat
  deriving DecidableEq, Repr

/-- The `SBLaunchInfo` collaborator: opaque beyond its raw reference. -/
structure SBLaunchInfo where
  raw : Nat
  deriving DecidableEq, Repr

/-- `SBPlatform::maybe_wrap`: wraps the raw reference when
`sys::SBPlatformIsValid` reports it valid, otherwise `none`. -/
def SBPlatform.maybe_wrap (eng : NativeEngine) (raw : Nat) : Option SBPlatform :=
  if eng.platformValidQ raw then some { raw := raw } else none

/-- `SBPlatform::is_valid`: `sys::SBPlatformIsValid(self.raw) != 0`. -/
def SBPlatform.is_valid (eng : NativeEngine) (p : SBPlatform) : Bool :=
  eng.platformValidQ p.raw

/-- Appends the error record a fallible native call returns and wraps
the fresh raw reference (`SBError::wrap` on the returned ref). -/
def nativeReturnErr (st : NativeState) (s : NativeErrorState) :
    NativeState × SBError :=
  ({ errs := st.errs ++ [s] }, { raw := st.errs.length })

/-- `SBPlatform::connect_remote_with_options`: wraps the error returned
by `sys::SBPlatformConnectRemote`, then `Ok(())` when it reports
success, `Err(result)` otherwise. Total: it cannot panic. -/
def SBPlatform.connect_remote_with_options (eng : NativeEngine)
    (st : NativeState) (p : SBPlatform) (o : RemoteConnectOptions) :
    NativeState × Except SBError Unit × List Ev :=
  let (st', result) := nativeReturnErr st (eng.connectResult p.raw o.url)
  if result.is_success st' then (st', .ok (), [.nativeConnect o.url])
  else (st', .error result, [.nativeConnect o.url])

/-- `SBPlatform::launch`: wraps the error returned by
`sys::SBPlatformLaunch`, then `Ok(())` on success, `Err(error)`
otherwise. Total: it cannot panic. -/
def SBPlatform.launch (eng : NativeEngine) (st : NativeState)
    (p : SBPlatform) (li : SBLaunchInfo) :
    NativeState × Except SBError Unit × List Ev :=
  let (st', error) := nativeReturnErr st (eng.launchResult p.raw li.raw)
  if error.is_success st' then (st', .ok (), [.nativeLaunch])
  else (st', .error error, [.nativeLaunch])

/-- `SBPlatform::kill`: wraps the error returned by
`sys::SBPlatformKill`, then `Ok(())` on success, `Err(error)`
otherwise. Total: it cannot panic. -/
def SBPlatform.kill (eng : NativeEngine) (st : NativeState)
    (p : SBPlatform) (pid : Nat) :
    NativeState × Except SBError Unit × List Ev :=
  let (st', error) := nativeReturnErr st (eng.killResult p.raw pid)
  if error.is_success st' then (st', .ok (), [.nativeKill])
  else (st', .error error, [.nativeKill])

/-- `SBPlatform::connect_remote`: builds `RemoteConnectOptions` from
scheme, host, `Some(port)` and no path, then delegates to
`connect_remote_with_options`. Inherits the serialization panic. -/
def SBPlatform.connect_remote (eng : NativeEngine) (st : NativeState)
    (p : SBPlatform) (scheme : RemoteScheme) (host : String) (port : Nat) :
    TResult (NativeState × Except SBError Unit) :=
  match RemoteConnectOptions.new scheme host (some port) none with
  | .panicked evs => .panicked evs
  | .ok o evs =>
      let (st', r, evs') := SBPlatform.connect_remote_with_options eng st p o
      .ok (st', r) (evs ++ evs')

/-- `SBPlatform::wrap`: takes ownership of a raw reference unchecked. -/
def SBPlatform.wrap (raw : Nat) : SBPlatform := { raw := raw }

/-- Correspondence between the two verbatim-duplicate scheme enums of
`src/platform.rs` and `src/remote_url.rs`. -/
def toUrlScheme : RemoteScheme → RemoteUrlScheme
  | .Listen => .Listen
  | .Accept => .Accept
  | .UnixAccept => .UnixAccept
  | .Connect => .Connect
  | .TcpConnect => .TcpConnect
  | .Udp => .Udp
  | .UnixConnect => .UnixConnect
  | .UnixAbstractConnect => .UnixAbstractConnect
  | .Fd => .Fd
  | .File => .File

/-- Modelled from the spec (for the refinement claim):
`ConnectionOptions::from_target` serializes the target and constructs
the native connect-options object from the resulting bytes. -/
def spec_from_target (t : RemoteUrl) : TResult RemoteConnectOptions :=
  match t.serialize with
  | .panicked => .panicked []
  | .ok url => .ok { url := url } [.allocUrl url, .nativeCreateOpts url]

/-- Modelled from the spec (for the refinement claim): `connect_to` as
the composition RemoteTarget::new with the port set and no path, then
`from_target`, then the connect operation. -/
def spec_connect_to (eng : NativeEngine) (st : NativeState) (p : SBPlatform)
    (scheme : RemoteScheme) (host : String) (port : Nat) :
    TResult (NativeState × Except SBError Unit) :=
  match spec_from_target ((RemoteUrl.new (toUrlScheme scheme) host).with_port port) with
  | .panicked evs => .panicked evs
  | .ok o evs =>
      let (st', r, evs') := SBPlatform.connect_remote_with_options eng st p o
      .ok (st', r) (evs ++ evs')

/-- Concrete native engine used by the witness instances: every call
reports success and every platform reference is valid. -/
def engTriv : NativeEngine where
  connectResult := fun _ _ => .success
  launchResult := fun _ _ => .success
  killResult := fun _ _ => .success
  platformValidQ := fun _ => true

theorem hasNul_append (a b : String) :
    hasNul (a ++ b) = (hasNul a || hasNul b) := by
  simp [hasNul, String.data_append]

theorem list_getD_append_self (l : List α) (a d : α) :
    (l ++ [a]).getD l.length d = a := by
  simp [List.getD, List.getElem?_append_right]

theorem stateOf_fresh (st : NativeState) (s : NativeErrorState) :
    NativeState.stateOf { errs := st.errs ++ [s] } st.errs.length = s := by
  simp [NativeState.stateOf, list_getD_append_self]

/-- C7: for every error handle, `is_success` and `is_failure` are never
simultaneously true, and an invalid handle reports neither success nor
failure — in every native state, hence after every operation that
produces or mutates a handle. -/
theorem error_success_failure_exclusive :
    ∀ (st : NativeState) (e : SBError),
      (e.is_success st && e.is_failure st) = false ∧
      ((!e.is_valid st) && (e.is_success st || e.is_failure st)) = false := by
  intro st e
  cases h : st.stateOf e.raw <;>
    simp [SBError.is_success, SBError.is_failure, SBError.is_valid, h,
      NativeErrorState.isSuccessB, NativeErrorState.isFailB,
      NativeErrorState.isValidB]

/-- C8: a freshly constructed `SBError` (`SBError::new` via
`CreateSBError`) is valid, reports success, and does not report
failure. -/
theorem fresh_error_is_valid_success :
    ∀ st : NativeState,
      (SBError.new st).2.is_valid (SBError.new st).1 = true ∧
      (SBError.new st).2.is_success (SBError.new st).1 = true ∧
      (SBError.new st).2.is_failure (SBError.new st).1 = false := by
  intro st
  refine ⟨?_, ?_, ?_⟩ <;>
    simp [SBError.new, SBError.is_valid, SBError.is_success,
      SBError.is_failure, stateOf_fresh, NativeErrorState.isValidB,
      NativeErrorState.isSuccessB, NativeErrorState.isFailB]

/-- C9: the builder setters commute — setting the port then the path
yields the same serialization as setting the path then the port. -/
theorem with_port_with_path_commute :
    ∀ (u : RemoteUrl) (p : Nat) (q : String),
      ((u.with_port p).with_path q).serialize
        = ((u.with_path q).with_port p).serialize := by
  intro u p q
  rfl

/-- C4: `into_result` yields `Ok(())` exactly when the handle reports
success, otherwise `Err` carrying the very same handle; the native
store is untouched, so no native duplicate is created. -/
theorem into_result_success_iff_and_same_handle :
    ∀ (st : NativeState) (e : SBError),
      ((SBError.into_result st e).2 = Except.ok () ↔ e.is_success st = true) ∧
      ((SBError.into_result st e).2 = Except.error e ↔ e.is_success st = false) ∧
      (SBError.into_result st e).1 = st := by
  intro st e
  cases h : e.is_success st <;> simp [SBError.into_result, h]

/-- C10: `maybe_wrap` (for both `SBError` and `SBPlatform`) returns
`some` wrapping the raw reference exactly when the native validity
query reports it valid, `none` otherwise, and any handle it returns
satisfies `is_valid`. -/
theorem maybe_wrap_some_iff_valid :
    ∀ (eng : NativeEngine) (st : NativeState) (raw : Nat),
      (SBError.maybe_wrap st raw = some (SBError.wrap raw)
        ↔ (SBError.wrap raw).is_valid st = true) ∧
      (SBError.maybe_wrap st raw = none
        ↔ (SBError.wrap raw).is_valid st = false) ∧
      ((SBError.maybe_wrap st raw).all fun e => e.is_valid st) = true ∧
      (SBPlatform.maybe_wrap eng raw = some (SBPlatform.wrap raw)
        ↔ (SBPlatform.wrap raw).is_valid eng = true) ∧
      (SBPlatform.maybe_wrap eng raw = none
        ↔ (SBPlatform.wrap raw).is_valid eng = false) ∧
      ((SBPlatform.maybe_wrap eng raw).all fun p => p.is_valid eng) = true := by
  intro eng st raw
  refine ⟨?_, ?_, ?_, ?_, ?_, ?_⟩
  · cases h : (st.stateOf raw).isValidB <;>
      simp [SBError.maybe_wrap, SBError.wrap, SBError.is_valid, h]
  · cases h : (st.stateOf raw).isValidB <;>
      simp [SBError.maybe_wrap, SBError.wrap, SBError.is_valid, h]
  · cases h : (st.stateOf raw).isValidB <;>
      simp [SBError.maybe_wrap, SBError.wrap, SBError.is_valid, h, Option.all]
  · cases h : eng.platformValidQ raw <;>
      simp [SBPlatform.maybe_wrap, SBPlatform.wrap, SBPlatform.is_valid, h]
  · cases h : eng.platformValidQ raw <;>
      simp [SBPlatform.maybe_wrap, SBPlatform.wrap, SBPlatform.is_valid, h]
  · cases h : eng.platformValidQ raw <;>
      simp [SBPlatform.maybe_wrap, SBPlatform.wrap, SBPlatform.is_valid, h, Option.all]

/-- C1: serialization produces exactly
`<scheme>://<host>`, then `:<port>` in decimal when a port is set, then
`/<path>` when a path is set, in that fixed order, with the fixed
lowercase scheme token; stated for every target whose assembled text is
NUL-free (otherwise serialization does not produce a value, see the
NUL claim). -/
theorem serialize_produces_wire_format (u : RemoteUrl)
    (h : hasNul u.serializeText = false) :
    u.serialize = SerializeResult.ok (u.scheme.as_str ++ "://" ++ u.host
      ++ (match u.port with | some p => ":" ++ Nat.repr p | none => "")
      ++ (match u.path with | some q => "/" ++ q | none => "")) := by
  have htext : u.serializeText = u.scheme.as_str ++ "://" ++ u.host
      ++ (match u.port with | some p => ":" ++ Nat.repr p | none => "")
      ++ (match u.path with | some q => "/" ++ q | none => "") := by
    unfold RemoteUrl.serializeText
    cases hp : u.port <;> cases hq : u.path <;>
      simp [hp, hq, String.append_assoc, String.append_empty]
  rw [RemoteUrl.serialize, h]
  simp [htext]

/-- C1 witness: the example given by the claim,
`new(TcpConnect, "192.168.1.5").with_port(1234)` serializes to
`tcp-connect://192.168.1.5:1234`. -/
theorem serialize_produces_wire_format_witness :
    ((RemoteUrl.new .TcpConnect "192.168.1.5").with_port 1234).serialize
      = SerializeResult.ok "tcp-connect://192.168.1.5:1234" := by
  rw [serialize_produces_wire_format
    ((RemoteUrl.new .TcpConnect "192.168.1.5").with_port 1234) (by decide)]
  decide

/-- C2 counterexample: a target whose host contains a literal NUL byte
makes `serialize` panic (the `expect` in the source) instead of
returning an error value, so serialization is not a total function into
error-or-text and does panic for such input. -/
theorem serialize_nul_panics_example :
    (RemoteUrl.new .TcpConnect "host\x00evil").serialize
      = SerializeResult.panicked := by decide

/-- C2 amended: when the assembled URL text contains an embedded NUL,
serialization panics (it does not return an error value), and a connect
attempt with such a target panics before any native call is made — the
panic trace is empty, so in particular it contains no native event. -/
theorem nul_serialization_panics_before_native_call :
    (∀ u : RemoteUrl, hasNul u.serializeText = true →
      u.serialize = SerializeResult.panicked) ∧
    (∀ (eng : NativeEngine) (st : NativeState) (p : SBPlatform)
       (scheme : RemoteScheme) (host : String) (port : Nat),
      hasNul host = true →
      SBPlatform.connect_remote eng st p scheme host port
        = TResult.panicked []) := by
  constructor
  · intro u h
    simp [RemoteUrl.serialize, h]
  · intro eng st p scheme host port h
    have hser : serialize_url scheme host (some port) none
        = SerializeResult.panicked := by
      unfold serialize_url
      simp [hasNul_append, h]
    unfold SBPlatform.connect_remote RemoteConnectOptions.new
    rw [hser]

/-- C2 amended witness: concrete NUL-containing host, concrete engine. -/
theorem nul_serialization_panics_witness :
    (RemoteUrl.new .Udp "a\x00b").serialize = SerializeResult.panicked ∧
    SBPlatform.connect_remote engTriv { errs := [] } { raw := 0 } .Udp "a\x00b" 5
      = TResult.panicked [] :=
  ⟨nul_serialization_panics_before_native_call.1 _ (by decide),
   nul_serialization_panics_before_native_call.2 engTriv { errs := [] }
     { raw := 0 } .Udp "a\x00b" 5 (by decide)⟩

/-- C3: each fallible platform operation returns `Ok(())` exactly when
the error record the native call returned reports success, and
otherwise `Err` carrying the handle wrapping precisely that fresh
record (its state in the resulting store is the one the native call
reported). The Lean result types have no panic constructor: the
operations are total and cannot panic or abort. -/
theorem fallible_ops_decode_native_error :
    ∀ (eng : NativeEngine) (st : NativeState) (p : SBPlatform)
      (o : RemoteConnectOptions) (li : SBLaunchInfo) (pid : Nat),
      ((SBPlatform.connect_remote_with_options eng st p o).2.1
          = if (eng.connectResult p.raw o.url).isSuccessB then Except.ok ()
            else Except.error (SBError.wrap st.errs.length)) ∧
      ((SBPlatform.connect_remote_with_options eng st p o).1.stateOf st.errs.length
          = eng.connectResult p.raw o.url) ∧
      ((SBPlatform.launch eng st p li).2.1
          = if (eng.launchResult p.raw li.raw).isSuccessB then Except.ok ()
            else Except.error (SBError.wrap st.errs.length)) ∧
      ((SBPlatform.launch eng st p li).1.stateOf st.errs.length
          = eng.launchResult p.raw li.raw) ∧
      ((SBPlatform.kill eng st p pid).2.1
          = if (eng.killResult p.raw pid).isSuccessB then Except.ok ()
            else Except.error (SBError.wrap st.errs.length)) ∧
      ((SBPlatform.kill eng st p pid).1.stateOf st.errs.length
          = eng.killResult p.raw pid) := by
  intro eng st p o li pid
  refine ⟨?_, ?_, ?_, ?_, ?_, ?_⟩ <;>
    simp [SBPlatform.connect_remote_with_options, SBPlatform.launch,
      SBPlatform.kill, nativeReturnErr, SBError.is_success, SBError.wrap,
      stateOf_fresh] <;>
    split <;> simp_all [NativeState.stateOf, list_getD_append_self]

/-- C5 helper: the URL text `serialize_url` assembles from raw scheme,
host and port coincides with serializing the corresponding
`RemoteUrl` target. -/
theorem serialize_url_eq_target_serialize (scheme : RemoteScheme)
    (host : String) (port : Nat) :
    serialize_url scheme host (some port) none
      = ((RemoteUrl.new (toUrlScheme scheme) host).with_port port).serialize := by
  have hs : (toUrlScheme scheme).as_str = scheme.as_str := by
    cases scheme <;> rfl
  unfold serialize_url RemoteUrl.serialize RemoteUrl.serializeText
  simp [RemoteUrl.new, RemoteUrl.with_port, hs]

/-- C5: `connect_remote(scheme, host, port)` returns the same result as
building a RemoteTarget from scheme and host with that port and no
path, turning it into connection options, and calling
`connect_remote_with_options` on the same platform. -/
theorem connect_remote_refines_spec_composition :
    ∀ (eng : NativeEngine) (st : NativeState) (p : SBPlatform)
      (scheme : RemoteScheme) (host : String) (port : Nat),
      SBPlatform.connect_remote eng st p scheme host port
        = spec_connect_to eng st p scheme host port := by
  intro eng st p scheme host port
  unfold SBPlatform.connect_remote spec_connect_to RemoteConnectOptions.new
    spec_from_target
  rw [serialize_url_eq_target_serialize]

/-- C6: when construction succeeds, the connect-options constructor
allocates the serialized URL buffer and then, with the buffer still
live, issues the native constructor call; no event of the constructor
trace frees the buffer, and the destructor does not free it either —
the buffer is intentionally leaked and never freed, so it outlives the
native constructor call. -/
theorem options_url_buffer_outlives_native_ctor :
    ∀ (scheme : RemoteScheme) (host : String) (port : Option Nat)
      (path : Option String) (url : String),
      serialize_url scheme host port path = SerializeResult.ok url →
      RemoteConnectOptions.new scheme host port path
          = TResult.ok { url := url } [Ev.allocUrl url, Ev.nativeCreateOpts url] ∧
      (([Ev.allocUrl url, Ev.nativeCreateOpts url].all fun e => !e.isFree) = true) ∧
      (((RemoteConnectOptions.drop { url := url }).all fun e => !e.isFree) = true) := by
  intro scheme host port path url h
  refine ⟨?_, by simp [Ev.isFree], by simp [RemoteConnectOptions.drop, Ev.isFree]⟩
  unfold RemoteConnectOptions.new
  rw [h]

/-- C6 witness: a concrete construction whose serialized URL is
`connect://h`. -/
theorem options_url_buffer_outlives_native_ctor_witness :
    serialize_url .Connect "h" none none = SerializeResult.ok "connect://h" ∧
    (RemoteConnectOptions.new .Connect "h" none none
        = TResult.ok { url := "connect://h" }
            [Ev.allocUrl "connect://h", Ev.nativeCreateOpts "connect://h"] ∧
      (([Ev.allocUrl "connect://h", Ev.nativeCreateOpts "connect://h"].all
          fun e => !e.isFree) = true) ∧
      (((RemoteConnectOptions.drop { url := "connect://h" }).all
          fun e => !e.isFree) = true)) :=
  ⟨by decide,
   options_url_buffer_outlives_native_ctor .Connect "h" none none "connect://h"
     (by decide)⟩
